import Mathlib

/-!
Shallow embedding of `src/vectorDb.py`, a small Flask service with two
handlers: `build_vector_db` (POST /build_vector_db) and `load_vector_db`
(POST /load_vector_db), plus the helper `expand_query`.

Modelling conventions:
* Python `str` becomes `String`; a possibly-missing JSON field (`data.get`
  returning `None`) becomes `Option String`.
* Similarity scores (Python floats) become `ℚ`; the threshold literal `0.3`
  becomes `3/10`.  All comparisons in the source are order comparisons, so
  the embedding preserves the branch structure.
* External collaborators (Supabase storage, the Gemini LLM, the
  llama-index retriever) are parameters of the handler, collected in an
  environment record.  Each call either returns a value or raises, so it
  is modelled as `Except PyExc _`.
* Raised exceptions caught by a handler `try` become the 500 branch; an
  exception raised outside any `try` escapes the handler (Flask then
  produces its own 500 error page), modelled by `HandlerResult.unhandled`.
* Each handler also returns the sequence of external calls it performed
  (its effect trace), so that claims about which prompt was sent, or
  about deletes happening before uploads, are statable.
* Local filesystem bookkeeping (temp dirs, `shutil.rmtree`, writing the
  downloaded bytes) has no observable effect on the claims and is not
  tracked in the trace.
-/

/-- The characters Python `str.strip()` removes by default
(ASCII whitespace, including vertical tab and form feed). -/
def isPySpace (c : Char) : Bool :=
  c = ' ' || c = '\t' || c = '\n' || c = '\r' || c = '\x0b' || c = '\x0c'

/-- Python `s.strip()`: drop leading and trailing whitespace. -/
def pyStrip (s : String) : String :=
  String.mk (((s.data.dropWhile isPySpace).reverse.dropWhile isPySpace).reverse)

/-- A raised Python exception. `typeErr` stands for the `TypeError` raised
by `None + str`; `err` carries the message of any other exception. -/
inductive PyExc where
  | typeErr : PyExc
  | err : String → PyExc
deriving DecidableEq, Repr

/-- `str(e)` as used in the 500 response bodies. -/
def PyExc.msg : PyExc → String
  | .typeErr => "unsupported operand types for +="
  | .err s => s

/-- The synonym table of `expand_query` (lines 118-121), in Python dict
insertion order. -/
def synonyms : List (String × List String) :=
  [("example", ["sample", "instance"]), ("query", ["question", "inquiry"])]

/-- `expand_query` (lines 117-126) on an actual string: for every keyword
of the table and every synonym, append `" OR <syn>"`. -/
def expand_query (query : String) : String :=
  synonyms.foldl (fun expanded ws =>
    ws.2.foldl (fun e syn => e ++ (" OR " ++ syn)) expanded) query

/-- Python `expanded += " OR <syn>"` when `expanded` may be `None`
(line 125): `None + str` raises a `TypeError`. -/
def pyAugAssign : Option String → String → Except PyExc (Option String)
  | none, _ => .error .typeErr
  | some a, b => .ok (some (a ++ b))

/-- `expand_query` as called on `data.get("query")` (line 133), where the
argument may be `None`: the same two nested loops, with the `+=` of
line 125 able to raise. -/
def expand_query_opt (query : Option String) : Except PyExc (Option String) :=
  synonyms.foldlM (fun expanded ws =>
    ws.2.foldlM (fun e syn => pyAugAssign e (" OR " ++ syn)) expanded) query

/-- Python truthiness of a possibly-missing string field: `None` and the
empty string are falsy. -/
def truthy : Option String → Bool
  | none => false
  | some s => s ≠ ""

/-- The branch condition of line 172, `not raw_answer or score < 0.3`,
applied to the already-stripped answer of line 165. -/
def confidenceGate (raw_answer : String) (score : ℚ) : Bool :=
  raw_answer == "" || decide (score < 3/10)

/-- Lines 166-168: `top_node = response.source_nodes[0] if
response.source_nodes else None; score = getattr(top_node, "score", 1.0)`.
A source node is represented by its similarity score; when there is no
source node, `top_node` is `None` and `getattr` yields the default `1.0`. -/
def topScore (source_nodes : List ℚ) : ℚ :=
  match source_nodes with
  | [] => 1
  | s :: _ => s

/-- Outcome of one request: either a response produced by the handler
(`jsonify(body), status`, bodies being flat string-valued JSON objects),
or an exception that escaped the handler and is left to Flask. -/
inductive HandlerResult where
  | response : Nat → List (String × String) → HandlerResult
  | unhandled : PyExc → HandlerResult
deriving DecidableEq, Repr

/-- What `query_engine.query` returns, as far as the handler looks at it:
the answer text `response.response` and the scores of
`response.source_nodes` in rank order. -/
structure QueryResponse where
  response : String
  source_nodes : List ℚ
deriving DecidableEq, Repr

/-- External calls made by `load_vector_db`, in order. -/
inductive LoadEffect where
  | configured : String → LoadEffect
  | listedBucket : String → LoadEffect
  | downloaded : String → LoadEffect
  | retrieved : String → LoadEffect
  | llmComplete : String → LoadEffect
deriving DecidableEq, Repr

/-- The external collaborators of `load_vector_db`: Gemini configuration,
the `vector-dbs` bucket (list and download by path), the retriever run on
the persisted index, and `Gemini(...).complete(...).text`. -/
structure LoadEnv where
  configure : String → Except PyExc Unit
  listBucket : String → Except PyExc (List String)
  download : String → Except PyExc Unit
  retrieve : String → Except PyExc QueryResponse
  complete : String → Except PyExc String

/-- The JSON body of a POST /load_vector_db request: `data.get` of each
field (line 132). -/
structure LoadRequest where
  api_key : Option String
  course_id : Option String
  query : Option String
deriving DecidableEq, Repr

/-- The download loop of lines 152-157: for each listed file, download
`vector_prefix + "/" + name` (note `vector_prefix` already ends in a
slash).  The first raised exception aborts the loop. -/
def downloadAll (env : LoadEnv) (pre : String) :
    List String → List LoadEffect → Except PyExc Unit × List LoadEffect
  | [], t => (.ok (), t)
  | name :: rest, t =>
    let path := pre ++ "/" ++ name
    let t := t ++ [.downloaded path]
    match env.download path with
    | .error e => (.error e, t)
    | .ok _ => downloadAll env pre rest t

/-- The `try` block of `load_vector_db` (lines 138-191); any exception
raised inside it becomes a 500 response carrying `str(e)` (line 194).
`raw_query` is the original query, `query` the expanded one (line 133). -/
def loadTry (env : LoadEnv) (api_key course_id raw_query query : String) :
    HandlerResult × List LoadEffect :=
  let t0 := [LoadEffect.configured api_key]
  match env.configure api_key with
  | .error e => (.response 500 [("error", e.msg)], t0)
  | .ok _ =>
    let pre := course_id ++ "/"
    let t1 := t0 ++ [LoadEffect.listedBucket pre]
    match env.listBucket pre with
    | .error e => (.response 500 [("error", e.msg)], t1)
    | .ok files =>
      if files.isEmpty then
        (.response 404 [("error", "No vector DB found for course.")], t1)
      else
        match downloadAll env pre files t1 with
        | (.error e, t2) => (.response 500 [("error", e.msg)], t2)
        | (.ok _, t2) =>
          let t3 := t2 ++ [LoadEffect.retrieved query]
          match env.retrieve query with
          | .error e => (.response 500 [("error", e.msg)], t3)
          | .ok resp =>
            let raw_answer := pyStrip resp.response
            let score := topScore resp.source_nodes
            if confidenceGate raw_answer score then
              let t4 := t3 ++ [LoadEffect.llmComplete raw_query]
              match env.complete raw_query with
              | .error e => (.response 500 [("error", e.msg)], t4)
              | .ok txt =>
                (.response 200
                  [("message", "No vector DB match. Answer generated using Gemini."),
                   ("response", pyStrip txt)], t4)
            else
              let refined_prompt :=
                "Improve and simplify this for a student:\n\n" ++ raw_answer
              let t4 := t3 ++ [LoadEffect.llmComplete refined_prompt]
              match env.complete refined_prompt with
              | .error e => (.response 500 [("error", e.msg)], t4)
              | .ok txt =>
                (.response 200
                  [("message", "Answer matched in vector DB and refined."),
                   ("response", pyStrip txt)], t4)

/-- `load_vector_db` (lines 129-194).  Faithful to the source order:
`expand_query` is applied at line 133, before the missing-field check of
line 135 and outside the `try`, so a missing `query` raises an unhandled
`TypeError`.  The check `not (api_key and course_id and raw_query)`
returns 400 when any field is missing or empty. -/
def load_vector_db (env : LoadEnv) (req : LoadRequest) :
    HandlerResult × List LoadEffect :=
  match expand_query_opt req.query with
  | .error e => (.unhandled e, [])
  | .ok queryOpt =>
    if truthy req.api_key && truthy req.course_id && truthy req.query then
      loadTry env (req.api_key.getD "") (req.course_id.getD "")
        (req.query.getD "") (queryOpt.getD "")
    else
      (.response 400 [("error", "Missing required fields")], [])

/-- External calls made by `build_vector_db`, in order. -/
inductive BuildEffect where
  | listedMaterials : String → BuildEffect
  | downloadedMaterial : String → BuildEffect
  | configured : String → BuildEffect
  | builtIndex : BuildEffect
  | listedIndexStore : String → BuildEffect
  | removedIndex : List String → BuildEffect
  | uploadedIndex : String → BuildEffect
deriving DecidableEq, Repr

/-- The external collaborators of `build_vector_db`: the
`course-materials` bucket (list, download), Gemini configuration, the
index build-and-persist step (reader, `from_documents`, `persist`), and
the `vector-dbs` bucket (list, remove, upload).  `artifactFiles` is the
list of relative paths that `os.walk(local_vector_path)` finds after
`persist`, in walk order. -/
structure BuildEnv where
  listMaterials : String → Except PyExc (List String)
  downloadMaterial : String → Except PyExc Unit
  configure : String → Except PyExc Unit
  buildIndex : Except PyExc Unit
  listIndexStore : String → Except PyExc (List String)
  removeIndex : List String → Except PyExc Unit
  uploadIndex : String → Except PyExc Unit
  artifactFiles : List String

/-- The JSON body of a POST /build_vector_db request (lines 42-43). -/
structure BuildRequest where
  course_id : Option String
  api : Option String
deriving DecidableEq, Repr

/-- The material download loop of lines 56-61: for each listed file,
download `file_prefix + "/" + name`.  The first raised exception aborts
the loop (and, in the handler, the whole `try`). -/
def downloadMaterials (env : BuildEnv) (pre : String) :
    List String → List BuildEffect → Except PyExc Unit × List BuildEffect
  | [], t => (.ok (), t)
  | name :: rest, t =>
    let path := pre ++ "/" ++ name
    let t := t ++ [.downloadedMaterial path]
    match env.downloadMaterial path with
    | .error e => (.error e, t)
    | .ok _ => downloadMaterials env pre rest t

/-- Lines 80-92: list the course directory of the `vector-dbs` bucket,
build `file_paths`, and remove them when non-empty.  The whole stage sits
in its own `try/except` whose handler only prints a warning, so a raised
exception here (from `list` or from `remove`) is swallowed and the
handler proceeds. -/
def deleteStage (env : BuildEnv) (course_id : String) (t : List BuildEffect) :
    List BuildEffect :=
  let t := t ++ [BuildEffect.listedIndexStore (course_id ++ "/")]
  match env.listIndexStore (course_id ++ "/") with
  | .error _ => t
  | .ok names =>
    let file_paths := names.map (fun n => course_id ++ "/" ++ n)
    if file_paths.isEmpty then t
    else
      let t := t ++ [BuildEffect.removedIndex file_paths]
      match env.removeIndex file_paths with
      | .error _ => t
      | .ok _ => t

/-- The upload loop of lines 98-105: for each file found under the
persisted artifact, upload it at `upload_prefix + "/" + relative_path`
(note `upload_prefix` already ends in a slash, so the stored path has a
double slash).  A raised exception aborts the loop and reaches the outer
`try`. -/
def uploadArtifacts (env : BuildEnv) (pre : String) :
    List String → List BuildEffect → Except PyExc Unit × List BuildEffect
  | [], t => (.ok (), t)
  | rel :: rest, t =>
    let path := pre ++ "/" ++ rel
    let t := t ++ [.uploadedIndex path]
    match env.uploadIndex path with
    | .error e => (.error e, t)
    | .ok _ => uploadArtifacts env pre rest t

/-- `build_vector_db` (lines 39-114).  The whole body sits in one `try`;
any exception not swallowed by the delete stage becomes a 500 response
with `str(e)` (line 114).  Validation: missing `course_id` or `api`
returns 400; an empty materials listing returns 404 before any download,
build, delete, or upload. -/
def build_vector_db (env : BuildEnv) (req : BuildRequest) :
    HandlerResult × List BuildEffect :=
  if ¬ truthy req.course_id then
    (.response 400 [("error", "Missing course_id")], [])
  else if ¬ truthy req.api then
    (.response 400 [("error", "Missing api")], [])
  else
    let course_id := req.course_id.getD ""
    let api := req.api.getD ""
    let filePre := course_id ++ "/files"
    let t0 := [BuildEffect.listedMaterials filePre]
    match env.listMaterials filePre with
    | .error e => (.response 500 [("error", e.msg)], t0)
    | .ok files =>
      if files.isEmpty then
        (.response 404 [("error", "No files found")], t0)
      else
        match downloadMaterials env filePre files t0 with
        | (.error e, t1) => (.response 500 [("error", e.msg)], t1)
        | (.ok _, t1) =>
          let t2 := t1 ++ [BuildEffect.configured api]
          match env.configure api with
          | .error e => (.response 500 [("error", e.msg)], t2)
          | .ok _ =>
            let t3 := t2 ++ [BuildEffect.builtIndex]
            match env.buildIndex with
            | .error e => (.response 500 [("error", e.msg)], t3)
            | .ok _ =>
              let uploadPre := course_id ++ "/"
              let t4 := deleteStage env course_id t3
              match uploadArtifacts env uploadPre env.artifactFiles t4 with
              | (.error e, t5) => (.response 500 [("error", e.msg)], t5)
              | (.ok _, t5) =>
                (.response 200
                  [("message",
                    "Vector DB built and uploaded to Supabase at path \x27" ++
                      uploadPre ++ "\x27.")], t5)

/-! ## Helper lemmas -/

theorem expand_query_opt_some (q : String) :
    expand_query_opt (some q) = .ok (some (expand_query q)) := rfl

theorem stripped_nil_iff (p : Char → Bool) (l : List Char) :
    ((l.dropWhile p).reverse.dropWhile p).reverse = [] ↔ l.all p = true := by
  rw [List.reverse_eq_nil_iff, List.dropWhile_eq_nil_iff, List.all_eq_true]
  constructor
  · intro h x hx
    have hsplit := List.takeWhile_append_dropWhile (p := p) (l := l)
    rcases List.mem_append.mp (hsplit ▸ hx) with h1 | h2
    · exact List.mem_takeWhile_imp h1
    · exact h x (List.mem_reverse.mpr h2)
  · intro h x hx
    apply h
    have hsplit := List.takeWhile_append_dropWhile (p := p) (l := l)
    have hx2 : x ∈ l.dropWhile p := List.mem_reverse.mp hx
    exact hsplit ▸ List.mem_append.mpr (Or.inr hx2)

/-- `s.strip()` is empty exactly when every character of `s` is
whitespace (in particular when `s` is empty). -/
theorem pyStrip_eq_empty_iff (s : String) :
    pyStrip s = "" ↔ s.data.all isPySpace = true := by
  unfold pyStrip
  rw [show ("" : String) = String.mk [] from rfl, String.ext_iff]
  exact stripped_nil_iff isPySpace s.data

theorem downloadAll_ok (env : LoadEnv) (pre : String) (names : List String)
    (h : ∀ n ∈ names, env.download (pre ++ "/" ++ n) = .ok ()) :
    ∀ t, downloadAll env pre names t =
      (.ok (), t ++ names.map (fun n => .downloaded (pre ++ "/" ++ n))) := by
  induction names with
  | nil => intro t; simp [downloadAll]
  | cons x xs ih =>
    intro t
    have hx := h x (List.mem_cons_self x xs)
    simp only [downloadAll, hx]
    rw [ih (fun n hn => h n (List.mem_cons_of_mem x hn))]
    simp

theorem load_vector_db_valid (env : LoadEnv) (a c r : String)
    (ha : a ≠ "") (hc : c ≠ "") (hr : r ≠ "") :
    load_vector_db env ⟨some a, some c, some r⟩ =
      loadTry env a c r (expand_query r) := by
  simp [load_vector_db, expand_query_opt_some, truthy, ha, hc, hr]

/-- A run of `loadTry` that reaches the gate of line 172, with the gate
condition and the chosen completion left as hypotheses. -/
theorem loadTry_gate (env : LoadEnv) (a c r q : String) (files : List String)
    (resp : QueryResponse)
    (hcfg : env.configure a = .ok ())
    (hls : env.listBucket (c ++ "/") = .ok files)
    (hne : files ≠ [])
    (hdl : ∀ n ∈ files, env.download (c ++ "/" ++ "/" ++ n) = .ok ())
    (hq : env.retrieve q = .ok resp) :
    loadTry env a c r q =
      (let t3 := [LoadEffect.configured a, LoadEffect.listedBucket (c ++ "/")] ++
        files.map (fun n => LoadEffect.downloaded (c ++ "/" ++ "/" ++ n)) ++
        [LoadEffect.retrieved q]
      if confidenceGate (pyStrip resp.response) (topScore resp.source_nodes) then
        match env.complete r with
        | .error e => (.response 500 [("error", e.msg)], t3 ++ [.llmComplete r])
        | .ok txt =>
          (.response 200
            [("message", "No vector DB match. Answer generated using Gemini."),
             ("response", pyStrip txt)], t3 ++ [.llmComplete r])
      else
        match env.complete
          ("Improve and simplify this for a student:\n\n" ++ pyStrip resp.response) with
        | .error e =>
          (.response 500 [("error", e.msg)], t3 ++
            [.llmComplete ("Improve and simplify this for a student:\n\n" ++
              pyStrip resp.response)])
        | .ok txt =>
          (.response 200
            [("message", "Answer matched in vector DB and refined."),
             ("response", pyStrip txt)], t3 ++
            [.llmComplete ("Improve and simplify this for a student:\n\n" ++
              pyStrip resp.response)])) := by
  have hempty : files.isEmpty = false := by
    cases files with
    | nil => exact absurd rfl hne
    | cons x xs => rfl
  simp only [loadTry, hcfg, hls, hempty, Bool.false_eq_true, if_false,
    downloadAll_ok env (c ++ "/") files hdl, hq]
  simp

theorem downloadMaterials_ok (env : BuildEnv) (pre : String)
    (names : List String)
    (h : ∀ n ∈ names, env.downloadMaterial (pre ++ "/" ++ n) = .ok ()) :
    ∀ t, downloadMaterials env pre names t =
      (.ok (), t ++ names.map (fun n => .downloadedMaterial (pre ++ "/" ++ n))) := by
  induction names with
  | nil => intro t; simp [downloadMaterials]
  | cons x xs ih =>
    intro t
    have hx := h x (List.mem_cons_self x xs)
    simp only [downloadMaterials, hx]
    rw [ih (fun n hn => h n (List.mem_cons_of_mem x hn))]
    simp

theorem uploadArtifacts_ok (env : BuildEnv) (pre : String)
    (rels : List String)
    (h : ∀ rel ∈ rels, env.uploadIndex (pre ++ "/" ++ rel) = .ok ()) :
    ∀ t, uploadArtifacts env pre rels t =
      (.ok (), t ++ rels.map (fun rel => .uploadedIndex (pre ++ "/" ++ rel))) := by
  induction rels with
  | nil => intro t; simp [uploadArtifacts]
  | cons x xs ih =>
    intro t
    have hx := h x (List.mem_cons_self x xs)
    simp only [uploadArtifacts, hx]
    rw [ih (fun rel hr => h rel (List.mem_cons_of_mem x hr))]
    simp

/-- A successful run of `build_vector_db` up to the upload stage, with
the delete stage left opaque (it swallows its own failures). -/
theorem build_run (env : BuildEnv) (c a : String) (files : List String)
    (hc : c ≠ "") (ha : a ≠ "")
    (hls : env.listMaterials (c ++ "/files") = .ok files) (hfne : files ≠ [])
    (hdl : ∀ n ∈ files, env.downloadMaterial (c ++ "/files" ++ "/" ++ n) = .ok ())
    (hcfg : env.configure a = .ok ())
    (hbi : env.buildIndex = .ok ())
    (hup : ∀ rel ∈ env.artifactFiles,
      env.uploadIndex (c ++ "/" ++ "/" ++ rel) = .ok ()) :
    build_vector_db env ⟨some c, some a⟩ =
      (.response 200
        [("message", "Vector DB built and uploaded to Supabase at path \x27" ++
          (c ++ "/") ++ "\x27.")],
       deleteStage env c
         ([BuildEffect.listedMaterials (c ++ "/files")] ++
          files.map (fun n => BuildEffect.downloadedMaterial (c ++ "/files" ++ "/" ++ n)) ++
          [BuildEffect.configured a, BuildEffect.builtIndex]) ++
         env.artifactFiles.map
           (fun rel => BuildEffect.uploadedIndex (c ++ "/" ++ "/" ++ rel))) := by
  have hempty : files.isEmpty = false := by
    cases files with
    | nil => exact absurd rfl hfne
    | cons x xs => rfl
  simp only [build_vector_db, truthy, hc, hls, ha, hempty, Bool.false_eq_true,
    if_false, downloadMaterials_ok env (c ++ "/files") files hdl, hcfg, hbi,
    uploadArtifacts_ok env (c ++ "/") env.artifactFiles hup]
  simp [hc, ha, hls, hcfg, hbi, hempty,
    downloadMaterials_ok env (c ++ "/files") files hdl,
    uploadArtifacts_ok env (c ++ "/") env.artifactFiles hup]

/-! ## Claims -/

/-- C1: the confidence gate of `load_vector_db` (applied, as at lines 165
and 172, to the stripped candidate answer) selects the fallback path iff
the candidate answer is blank (empty or whitespace-only) or the score is
strictly below 3/10; in particular, a non-blank answer at a score of
exactly 3/10 selects the refine path, and a blank answer selects fallback
at every score. -/
theorem confidenceGate_fallback_iff (candidate : String) (score : ℚ) :
    (confidenceGate (pyStrip candidate) score = true ↔
      (candidate.data.all isPySpace = true ∨ score < 3/10)) ∧
    (candidate.data.all isPySpace ≠ true →
      confidenceGate (pyStrip candidate) (3/10) = false) ∧
    (candidate.data.all isPySpace = true →
      confidenceGate (pyStrip candidate) score = true) := by
  refine ⟨?_, ?_, ?_⟩
  · simp [confidenceGate, pyStrip_eq_empty_iff]
  · intro h
    simp only [confidenceGate, Bool.or_eq_false_iff]
    constructor
    · rw [beq_eq_false_iff_ne]
      rw [Ne, pyStrip_eq_empty_iff]
      exact h
    · simp
  · intro h
    simp [confidenceGate, pyStrip_eq_empty_iff, h]

theorem confidenceGate_fallback_iff_witness :
    confidenceGate (pyStrip "hi") (3/10) = false ∧
    confidenceGate (pyStrip " ") 2 = true :=
  ⟨(confidenceGate_fallback_iff "hi" (3/10)).2.1 (by decide),
   (confidenceGate_fallback_iff " " 2).2.2 (by decide)⟩

/-- C2: for every query string, `expand_query` returns the query with all
configured synonym clauses appended in table order, independent of the
query content. -/
theorem expand_query_appends_all_synonyms (q : String) :
    expand_query q = q ++ " OR sample OR instance OR question OR inquiry" := by
  simp [expand_query, synonyms, String.append_assoc]

/-- C3: when the retrieval result has no source node, the score defaults
to 1; consequently a run of `load_vector_db` whose retrieval has no
source match and a non-blank answer takes the refine path. -/
theorem noSourceMatch_defaults_one_and_refines (env : LoadEnv)
    (a c r txt : String) (files : List String) (resp : QueryResponse)
    (ha : a ≠ "") (hc : c ≠ "") (hr : r ≠ "")
    (hcfg : env.configure a = .ok ())
    (hls : env.listBucket (c ++ "/") = .ok files) (hne : files ≠ [])
    (hdl : ∀ n ∈ files, env.download (c ++ "/" ++ "/" ++ n) = .ok ())
    (hq : env.retrieve (expand_query r) = .ok resp)
    (hnodes : resp.source_nodes = [])
    (hblank : pyStrip resp.response ≠ "")
    (hcomp : env.complete ("Improve and simplify this for a student:\n\n" ++
      pyStrip resp.response) = .ok txt) :
    topScore resp.source_nodes = 1 ∧
    (load_vector_db env ⟨some a, some c, some r⟩).1 =
      .response 200 [("message", "Answer matched in vector DB and refined."),
                     ("response", pyStrip txt)] := by
  have hscore : topScore resp.source_nodes = 1 := by rw [hnodes]; rfl
  have hgate : confidenceGate (pyStrip resp.response)
      (topScore resp.source_nodes) = false := by
    rw [hscore]
    simp [confidenceGate, hblank]
    norm_num
  refine ⟨hscore, ?_⟩
  rw [load_vector_db_valid env a c r ha hc hr,
    loadTry_gate env a c r (expand_query r) files resp hcfg hls hne hdl hq]
  simp [hgate, hcomp]

def envC3 : LoadEnv where
  configure := fun _ => .ok ()
  listBucket := fun _ => .ok ["docstore.json"]
  download := fun _ => .ok ()
  retrieve := fun _ => .ok ⟨"ans", []⟩
  complete := fun _ => .ok "ref"

theorem noSourceMatch_defaults_one_and_refines_witness :
    topScore (QueryResponse.mk "ans" []).source_nodes = 1 ∧
    (load_vector_db envC3 ⟨some "k", some "c", some "q"⟩).1 =
      .response 200 [("message", "Answer matched in vector DB and refined."),
                     ("response", pyStrip "ref")] :=
  noSourceMatch_defaults_one_and_refines envC3 "k" "c" "q" "ref"
    ["docstore.json"] ⟨"ans", []⟩ (by decide) (by decide) (by decide)
    rfl rfl (by decide) (fun n _ => rfl) rfl rfl (by decide) rfl

def envC4 : LoadEnv where
  configure := fun _ => .ok ()
  listBucket := fun _ => .ok ["docstore.json"]
  download := fun _ => .ok ()
  retrieve := fun _ => .ok ⟨"", [9/10]⟩
  complete := fun _ => .ok "hello "

/-- C4 counterexample: in this concrete run the fallback path is taken
and the provider completion is "hello " (trailing space), but the
response field is the stripped "hello": the completion is not returned
verbatim. -/
theorem fallback_completion_not_verbatim :
    envC4.complete "q" = .ok "hello " ∧
    (load_vector_db envC4 ⟨some "k", some "c", some "q"⟩).1 =
      .response 200
        [("message", "No vector DB match. Answer generated using Gemini."),
         ("response", "hello")] ∧
    ("hello" : String) ≠ "hello " := by
  refine ⟨rfl, ?_, by decide⟩
  rfl

/-- C4 (amended): whenever the fallback path is taken in
`load_vector_db`, the only prompt sent to the generative provider is
exactly the original raw query (not the expanded query), and the
provider completion, stripped of leading and trailing whitespace, is
returned as the response together with the message that no vector-DB
match was found. -/
theorem fallback_uses_raw_query (env : LoadEnv) (a c r txt : String)
    (files : List String) (resp : QueryResponse)
    (ha : a ≠ "") (hc : c ≠ "") (hr : r ≠ "")
    (hcfg : env.configure a = .ok ())
    (hls : env.listBucket (c ++ "/") = .ok files) (hne : files ≠ [])
    (hdl : ∀ n ∈ files, env.download (c ++ "/" ++ "/" ++ n) = .ok ())
    (hq : env.retrieve (expand_query r) = .ok resp)
    (hgate : confidenceGate (pyStrip resp.response)
      (topScore resp.source_nodes) = true)
    (hcomp : env.complete r = .ok txt) :
    (load_vector_db env ⟨some a, some c, some r⟩).1 =
      .response 200
        [("message", "No vector DB match. Answer generated using Gemini."),
         ("response", pyStrip txt)] ∧
    LoadEffect.llmComplete r ∈ (load_vector_db env ⟨some a, some c, some r⟩).2 ∧
    (∀ p, LoadEffect.llmComplete p ∈
      (load_vector_db env ⟨some a, some c, some r⟩).2 → p = r) := by
  rw [load_vector_db_valid env a c r ha hc hr,
    loadTry_gate env a c r (expand_query r) files resp hcfg hls hne hdl hq]
  simp [hgate, hcomp]

def envC4w : LoadEnv where
  configure := fun _ => .ok ()
  listBucket := fun _ => .ok ["docstore.json"]
  download := fun _ => .ok ()
  retrieve := fun _ => .ok ⟨" ", [1/2]⟩
  complete := fun _ => .ok " hi "

theorem fallback_uses_raw_query_witness :
    (load_vector_db envC4w ⟨some "k", some "c", some "q"⟩).1 =
      .response 200
        [("message", "No vector DB match. Answer generated using Gemini."),
         ("response", pyStrip " hi ")] ∧
    LoadEffect.llmComplete "q" ∈
      (load_vector_db envC4w ⟨some "k", some "c", some "q"⟩).2 :=
  let h := fallback_uses_raw_query envC4w "k" "c" "q" " hi " ["docstore.json"]
    ⟨" ", [1/2]⟩ (by decide) (by decide) (by decide) rfl rfl (by decide)
    (fun n _ => rfl) rfl (by decide) rfl
  ⟨h.1, h.2.1⟩

/-- C5: whenever the refine path is taken in `load_vector_db`, the only
prompt sent to the generative provider is the fixed instruction
"Improve and simplify this for a student:" followed by a blank line and
the (stripped) candidate answer, and the provider completion (stripped)
is returned as the response with the matched-and-refined message. -/
theorem refine_prompt_wraps_answer (env : LoadEnv) (a c r txt : String)
    (files : List String) (resp : QueryResponse)
    (ha : a ≠ "") (hc : c ≠ "") (hr : r ≠ "")
    (hcfg : env.configure a = .ok ())
    (hls : env.listBucket (c ++ "/") = .ok files) (hne : files ≠ [])
    (hdl : ∀ n ∈ files, env.download (c ++ "/" ++ "/" ++ n) = .ok ())
    (hq : env.retrieve (expand_query r) = .ok resp)
    (hgate : confidenceGate (pyStrip resp.response)
      (topScore resp.source_nodes) = false)
    (hcomp : env.complete ("Improve and simplify this for a student:\n\n" ++
      pyStrip resp.response) = .ok txt) :
    (load_vector_db env ⟨some a, some c, some r⟩).1 =
      .response 200
        [("message", "Answer matched in vector DB and refined."),
         ("response", pyStrip txt)] ∧
    LoadEffect.llmComplete ("Improve and simplify this for a student:\n\n" ++
      pyStrip resp.response) ∈
      (load_vector_db env ⟨some a, some c, some r⟩).2 ∧
    (∀ p, LoadEffect.llmComplete p ∈
      (load_vector_db env ⟨some a, some c, some r⟩).2 →
      p = "Improve and simplify this for a student:\n\n" ++
        pyStrip resp.response) := by
  rw [load_vector_db_valid env a c r ha hc hr,
    loadTry_gate env a c r (expand_query r) files resp hcfg hls hne hdl hq]
  simp [hgate, hcomp]

def envC5 : LoadEnv where
  configure := fun _ => .ok ()
  listBucket := fun _ => .ok ["docstore.json"]
  download := fun _ => .ok ()
  retrieve := fun _ => .ok ⟨"ans", [1/2]⟩
  complete := fun _ => .ok "ref"

theorem gate_ans_half :
    confidenceGate (pyStrip (QueryResponse.mk "ans" [1/2]).response)
      (topScore (QueryResponse.mk "ans" [1/2]).source_nodes) = false := by
  rw [confidenceGate, Bool.or_eq_false_iff]
  refine ⟨by decide, ?_⟩
  rw [decide_eq_false_iff_not]
  norm_num [topScore]

theorem refine_prompt_wraps_answer_witness :
    (load_vector_db envC5 ⟨some "k", some "c", some "q"⟩).1 =
      .response 200
        [("message", "Answer matched in vector DB and refined."),
         ("response", pyStrip "ref")] ∧
    LoadEffect.llmComplete ("Improve and simplify this for a student:\n\n" ++
      pyStrip "ans") ∈
      (load_vector_db envC5 ⟨some "k", some "c", some "q"⟩).2 :=
  let h := refine_prompt_wraps_answer envC5 "k" "c" "q" "ref" ["docstore.json"]
    ⟨"ans", [1/2]⟩ (by decide) (by decide) (by decide) rfl rfl (by decide)
    (fun n _ => rfl) rfl gate_ans_half rfl
  ⟨h.1, h.2.1⟩

def envC6 : LoadEnv where
  configure := fun _ => .ok ()
  listBucket := fun _ => .ok ["docstore.json"]
  download := fun _ => .ok ()
  retrieve := fun _ => .ok ⟨"ans", []⟩
  complete := fun _ => .ok "x"

/-- C6: at the failing input (body with `api_key` and `course_id` but no
`query`), `load_vector_db` does not return 400: `expand_query` is applied
to the missing query at line 133, before the validation of line 135 and
outside the `try`, so the request dies with an unhandled `TypeError`
(Flask then answers 500; the result is a `HandlerResult.unhandled`, which
is a different constructor from every `HandlerResult.response 400 _`).
A missing `api_key` or `course_id` with the query present does return
400, showing the 400 branch was the intent. -/
theorem missing_query_raises_unhandled :
    (load_vector_db envC6 ⟨some "k", some "c", none⟩).1 =
      .unhandled .typeErr ∧
    (load_vector_db envC6 ⟨some "k", none, some "q"⟩).1 =
      .response 400 [("error", "Missing required fields")] ∧
    (load_vector_db envC6 ⟨none, some "c", some "q"⟩).1 =
      .response 400 [("error", "Missing required fields")] :=
  ⟨rfl, rfl, rfl⟩

/-- C7: a valid request for a course whose index-store listing is empty
gets the 404 not-found response; the trace stops at the listing, so no
retrieval and no generative call ever runs (in particular no 500 arises
from this condition). -/
theorem emptyListing_notFound (env : LoadEnv) (a c r : String)
    (ha : a ≠ "") (hc : c ≠ "") (hr : r ≠ "")
    (hcfg : env.configure a = .ok ())
    (hls : env.listBucket (c ++ "/") = .ok []) :
    (load_vector_db env ⟨some a, some c, some r⟩).1 =
      .response 404 [("error", "No vector DB found for course.")] ∧
    (load_vector_db env ⟨some a, some c, some r⟩).2 =
      [LoadEffect.configured a, LoadEffect.listedBucket (c ++ "/")] ∧
    (∀ q, LoadEffect.retrieved q ∉
      (load_vector_db env ⟨some a, some c, some r⟩).2) ∧
    (∀ p, LoadEffect.llmComplete p ∉
      (load_vector_db env ⟨some a, some c, some r⟩).2) := by
  have hmain : load_vector_db env ⟨some a, some c, some r⟩ =
      (.response 404 [("error", "No vector DB found for course.")],
       [LoadEffect.configured a, LoadEffect.listedBucket (c ++ "/")]) := by
    rw [load_vector_db_valid env a c r ha hc hr]
    simp [loadTry, hcfg, hls]
  rw [hmain]
  simp

def envC7 : LoadEnv where
  configure := fun _ => .ok ()
  listBucket := fun _ => .ok []
  download := fun _ => .ok ()
  retrieve := fun _ => .ok ⟨"ans", []⟩
  complete := fun _ => .ok "x"

theorem emptyListing_notFound_witness :
    (load_vector_db envC7 ⟨some "k", some "c", some "q"⟩).1 =
      .response 404 [("error", "No vector DB found for course.")] ∧
    (load_vector_db envC7 ⟨some "k", some "c", some "q"⟩).2 =
      [LoadEffect.configured "k", LoadEffect.listedBucket ("c" ++ "/")] :=
  let h := emptyListing_notFound envC7 "k" "c" "q" (by decide) (by decide)
    (by decide) rfl rfl
  ⟨h.1, h.2.1⟩

/-- C8: a valid build request whose materials listing is empty gets the
404 no-files-found response, and the trace stops at that listing: no
download, no index construction, no deletion, no upload. -/
theorem build_emptyListing_no_side_effects (env : BuildEnv) (c a : String)
    (hc : c ≠ "") (ha : a ≠ "")
    (hls : env.listMaterials (c ++ "/files") = .ok []) :
    (build_vector_db env ⟨some c, some a⟩).1 =
      .response 404 [("error", "No files found")] ∧
    (build_vector_db env ⟨some c, some a⟩).2 =
      [BuildEffect.listedMaterials (c ++ "/files")] ∧
    (∀ p, BuildEffect.downloadedMaterial p ∉
      (build_vector_db env ⟨some c, some a⟩).2) ∧
    BuildEffect.builtIndex ∉ (build_vector_db env ⟨some c, some a⟩).2 ∧
    (∀ ps, BuildEffect.removedIndex ps ∉
      (build_vector_db env ⟨some c, some a⟩).2) ∧
    (∀ p, BuildEffect.uploadedIndex p ∉
      (build_vector_db env ⟨some c, some a⟩).2) := by
  have hmain : build_vector_db env ⟨some c, some a⟩ =
      (.response 404 [("error", "No files found")],
       [BuildEffect.listedMaterials (c ++ "/files")]) := by
    simp [build_vector_db, truthy, hc, ha, hls]
  rw [hmain]
  simp

def benvC8 : BuildEnv where
  listMaterials := fun _ => .ok []
  downloadMaterial := fun _ => .ok ()
  configure := fun _ => .ok ()
  buildIndex := .ok ()
  listIndexStore := fun _ => .ok []
  removeIndex := fun _ => .ok ()
  uploadIndex := fun _ => .ok ()
  artifactFiles := ["docstore.json"]

theorem build_emptyListing_no_side_effects_witness :
    (build_vector_db benvC8 ⟨some "c", some "a"⟩).1 =
      .response 404 [("error", "No files found")] ∧
    (build_vector_db benvC8 ⟨some "c", some "a"⟩).2 =
      [BuildEffect.listedMaterials ("c" ++ "/files")] :=
  let h := build_emptyListing_no_side_effects benvC8 "c" "a" (by decide)
    (by decide) rfl
  ⟨h.1, h.2.1⟩

theorem deleteStage_ok (env : BuildEnv) (c : String) (names : List String)
    (hlsi : env.listIndexStore (c ++ "/") = .ok names) (hn : names ≠ []) :
    ∀ t, deleteStage env c t =
      t ++ [BuildEffect.listedIndexStore (c ++ "/"),
            BuildEffect.removedIndex (names.map (fun n => c ++ "/" ++ n))] := by
  intro t
  have hne : (names.map (fun n => c ++ "/" ++ n)).isEmpty = false := by
    cases names with
    | nil => exact absurd rfl hn
    | cons x xs => rfl
  simp only [deleteStage, hlsi, hne, Bool.false_eq_true, if_false]
  cases env.removeIndex (names.map (fun n => c ++ "/" ++ n)) <;> simp

/-- C9: in a successful build run, the single `remove` call, covering
every file previously listed under the course path in the index store,
happens strictly before every upload, and the uploads are exactly the
files of the new artifact, each stored under the course path followed by
its relative path. -/
theorem build_delete_before_upload (env : BuildEnv) (c a : String)
    (files names : List String)
    (hc : c ≠ "") (ha : a ≠ "")
    (hls : env.listMaterials (c ++ "/files") = .ok files) (hfne : files ≠ [])
    (hdl : ∀ n ∈ files, env.downloadMaterial (c ++ "/files" ++ "/" ++ n) = .ok ())
    (hcfg : env.configure a = .ok ())
    (hbi : env.buildIndex = .ok ())
    (hlsi : env.listIndexStore (c ++ "/") = .ok names) (hnne : names ≠ [])
    (hrm : env.removeIndex (names.map (fun n => c ++ "/" ++ n)) = .ok ())
    (hup : ∀ rel ∈ env.artifactFiles,
      env.uploadIndex (c ++ "/" ++ "/" ++ rel) = .ok ()) :
    (build_vector_db env ⟨some c, some a⟩).1 =
      .response 200
        [("message", "Vector DB built and uploaded to Supabase at path \x27" ++
          (c ++ "/") ++ "\x27.")] ∧
    ∃ pre,
      (build_vector_db env ⟨some c, some a⟩).2 =
        pre ++ [BuildEffect.removedIndex (names.map (fun n => c ++ "/" ++ n))] ++
          env.artifactFiles.map
            (fun rel => BuildEffect.uploadedIndex (c ++ "/" ++ "/" ++ rel)) ∧
      (∀ p, BuildEffect.uploadedIndex p ∉ pre) ∧
      (∀ p, BuildEffect.uploadedIndex p ∈
          (build_vector_db env ⟨some c, some a⟩).2 ↔
        ∃ rel ∈ env.artifactFiles, p = c ++ "/" ++ "/" ++ rel) := by
  have hmain := build_run env c a files hc ha hls hfne hdl hcfg hbi hup
  rw [deleteStage_ok env c names hlsi hnne] at hmain
  rw [hmain]
  refine ⟨rfl, [BuildEffect.listedMaterials (c ++ "/files")] ++
    files.map (fun n => BuildEffect.downloadedMaterial (c ++ "/files" ++ "/" ++ n)) ++
    [BuildEffect.configured a, BuildEffect.builtIndex,
     BuildEffect.listedIndexStore (c ++ "/")], by simp, ?_, ?_⟩
  · simp
  · intro p
    simp [eq_comm]

def benvC9 : BuildEnv where
  listMaterials := fun _ => .ok ["notes.pdf"]
  downloadMaterial := fun _ => .ok ()
  configure := fun _ => .ok ()
  buildIndex := .ok ()
  listIndexStore := fun _ => .ok ["old.json"]
  removeIndex := fun _ => .ok ()
  uploadIndex := fun _ => .ok ()
  artifactFiles := ["docstore.json", "index_store.json"]

theorem build_delete_before_upload_witness :
    (build_vector_db benvC9 ⟨some "c", some "a"⟩).1 =
      .response 200
        [("message", "Vector DB built and uploaded to Supabase at path \x27" ++
          ("c" ++ "/") ++ "\x27.")] :=
  (build_delete_before_upload benvC9 "c" "a" ["notes.pdf"] ["old.json"]
    (by decide) (by decide) rfl (by decide) (fun n _ => rfl) rfl rfl rfl
    (by decide) rfl (fun rel _ => rfl)).1

/-- C10: a failure raised while listing or removing the prior artifact
(lines 80-92) is swallowed by the inner `except`: the handler still
uploads every new artifact file and returns the 200 success response. -/
theorem build_delete_failure_swallowed (env : BuildEnv) (c a : String)
    (files : List String) (e : PyExc)
    (hc : c ≠ "") (ha : a ≠ "")
    (hls : env.listMaterials (c ++ "/files") = .ok files) (hfne : files ≠ [])
    (hdl : ∀ n ∈ files, env.downloadMaterial (c ++ "/files" ++ "/" ++ n) = .ok ())
    (hcfg : env.configure a = .ok ())
    (hbi : env.buildIndex = .ok ())
    (hfail : env.listIndexStore (c ++ "/") = .error e ∨
      ∃ names, names ≠ [] ∧ env.listIndexStore (c ++ "/") = .ok names ∧
        env.removeIndex (names.map (fun n => c ++ "/" ++ n)) = .error e)
    (hup : ∀ rel ∈ env.artifactFiles,
      env.uploadIndex (c ++ "/" ++ "/" ++ rel) = .ok ()) :
    (build_vector_db env ⟨some c, some a⟩).1 =
      .response 200
        [("message", "Vector DB built and uploaded to Supabase at path \x27" ++
          (c ++ "/") ++ "\x27.")] ∧
    ∀ rel ∈ env.artifactFiles,
      BuildEffect.uploadedIndex (c ++ "/" ++ "/" ++ rel) ∈
        (build_vector_db env ⟨some c, some a⟩).2 := by
  have hmain := build_run env c a files hc ha hls hfne hdl hcfg hbi hup
  rw [hmain]
  refine ⟨rfl, ?_⟩
  intro rel hrel
  simp only [List.mem_append]
  right
  exact List.mem_map.mpr ⟨rel, hrel, rfl⟩

def benvC10 : BuildEnv where
  listMaterials := fun _ => .ok ["notes.pdf"]
  downloadMaterial := fun _ => .ok ()
  configure := fun _ => .ok ()
  buildIndex := .ok ()
  listIndexStore := fun _ => .error (.err "storage outage")
  removeIndex := fun _ => .ok ()
  uploadIndex := fun _ => .ok ()
  artifactFiles := ["docstore.json"]

theorem build_delete_failure_swallowed_witness :
    (build_vector_db benvC10 ⟨some "c", some "a"⟩).1 =
      .response 200
        [("message", "Vector DB built and uploaded to Supabase at path \x27" ++
          ("c" ++ "/") ++ "\x27.")] ∧
    BuildEffect.uploadedIndex ("c" ++ "/" ++ "/" ++ "docstore.json") ∈
      (build_vector_db benvC10 ⟨some "c", some "a"⟩).2 :=
  let h := build_delete_failure_swallowed benvC10 "c" "a" ["notes.pdf"]
    (.err "storage outage") (by decide) (by decide) rfl (by decide)
    (fun n _ => rfl) rfl rfl (Or.inl rfl) (fun rel _ => rfl)
  ⟨h.1, h.2 "docstore.json" (by decide)⟩
